import Mathlib

/-!
Shallow embedding of the Café Serenity service worker (`sw.js`): the cache
store, the lifecycle handlers (`install`, `activate`) and the fetch router.

The Cache API is modelled as an association list of namespaces, each an
association list from a request URL (the request descriptor) to a stored
response.  Network access is an oracle `String → Option Response`: `none`
models a rejected fetch (network error), `some r` a fetch that resolved,
possibly with a non-ok status.  The asynchronous handlers are modelled as
pure state transformers; the fire-and-forget cache write of the navigation
branch completes before the handler result is observed, which is the
sequential collapse of the event-loop interleaving.
-/

set_option autoImplicit false

namespace CafeSW

/-- Model of JavaScript `String.prototype.startsWith`, stated on the
character lists so that it evaluates by `decide`. -/
def strStartsWith (s p : String) : Bool := p.data.isPrefixOf s.data

/-- A network response.  Headers are modelled by the single header the
worker ever sets or reads, `Content-Type`; the body is the response text. -/
structure Response where
  status : Nat
  statusText : String
  contentType : String
  body : String
deriving DecidableEq, Repr

/-- JavaScript `Response.ok`: status in the inclusive range 200–299. -/
def Response.ok (r : Response) : Bool := decide (200 ≤ r.status ∧ r.status < 300)

/-- An intercepted request: its URL (the cache descriptor), the origin of
that URL, `request.mode` and `request.destination`. -/
structure Request where
  url : String
  origin : String
  mode : String
  destination : String
deriving DecidableEq, Repr

/-- The entries of one cache namespace: descriptor → stored response. -/
abbrev CacheEntries := List (String × Response)

/-- The cache store: a list of named namespaces, in creation order. -/
abbrev CacheStore := List (String × CacheEntries)

/-- `Cache.match` within one namespace: first entry stored under the URL. -/
def cacheMatch (es : CacheEntries) (url : String) : Option Response :=
  match es with
  | [] => none
  | e :: rest => if e.1 == url then some e.2 else cacheMatch rest url

/-- `Cache.put`: overwrite any existing entry for the descriptor. -/
def putEntry (es : CacheEntries) (url : String) (r : Response) : CacheEntries :=
  (url, r) :: es.filter (fun e => e.1 != url)

/-- Find a namespace by name. -/
def nsFind : CacheStore → String → Option CacheEntries
  | [], _ => none
  | ns :: rest, name => if ns.1 == name then some ns.2 else nsFind rest name

/-- Whether a namespace of this name exists (`caches.has`). -/
def hasNs (st : CacheStore) (name : String) : Bool := (nsFind st name).isSome

/-- `caches.open`: create-if-absent, idempotent. -/
def cachesOpen (st : CacheStore) (name : String) : CacheStore :=
  if hasNs st name then st else st ++ [(name, [])]

/-- Write through a named namespace (`caches.open(name)` already done):
replace the entries of every namespace bearing the name. -/
def nsPut : CacheStore → String → String → Response → CacheStore
  | [], _, _, _ => []
  | ns :: rest, name, url, r =>
    if ns.1 == name then (ns.1, putEntry ns.2 url r) :: nsPut rest name url r
    else ns :: nsPut rest name url r

/-- Look a descriptor up in the namespace of the given name. -/
def cacheNsMatch (st : CacheStore) (name url : String) : Option Response :=
  match nsFind st name with
  | some es => cacheMatch es url
  | none => none

/-- `caches.match`: search every namespace in order, first hit wins. -/
def cachesMatchAll : CacheStore → String → Option Response
  | [], _ => none
  | ns :: rest, url =>
    match cacheMatch ns.2 url with
    | some r => some r
    | none => cachesMatchAll rest url

/-- `caches.delete name`. -/
def cachesDelete (st : CacheStore) (name : String) : CacheStore :=
  st.filter (fun ns => ns.1 != name)

/-- `const CACHE_NAME = 'cafe-serenity-v1.0.0'`. -/
def CACHE_NAME : String := "cafe-serenity-v1.0.0"

/-- `const OFFLINE_URL = '/offline.html'`. -/
def OFFLINE_URL : String := "/offline.html"

/-- `const IMAGE_CACHE_NAME = 'cafe-serenity-images-v1.0.0'`. -/
def IMAGE_CACHE_NAME : String := "cafe-serenity-images-v1.0.0"

/-- The namespace-name prefix the activate handler tests with `startsWith`. -/
def sitePfx : String := "cafe-serenity-"

/-- `const STATIC_CACHE_URLS = [...]`, the static manifest, in source order. -/
def STATIC_CACHE_URLS : List String :=
  [ "/",
    "/index.html",
    "/css/critical.css",
    "/css/main.css",
    "/js/main.js",
    "/manifest.json",
    "/offline.html",
    "https://fonts.googleapis.com/css2?family=Noto+Sans+JP:wght@300;400;500;700&family=Playfair+Display:wght@400;500;600;700&display=swap",
    "/images/icons/favicon.ico",
    "/images/icons/favicon-96x96.png",
    "/images/icons/apple-touch-icon.png",
    "/images/icons/web-app-manifest-192x192.png",
    "/images/icons/web-app-manifest-512x512.png",
    "/images/hero/hero-main.png" ]

/-- The synthesized navigation fallback `new Response('オフラインです', ...)`
with status 503 and a plain-text content type. -/
def offlineTextResponse : Response :=
  { status := 503
    statusText := "Service Unavailable"
    contentType := "text/plain; charset=utf-8"
    body := "オフラインです" }

/-- The synthesized "other resources" fallback
`new Response('リソースを取得できません', ...)` with status 503. -/
def unavailableResponse : Response :=
  { status := 503
    statusText := "Service Unavailable"
    contentType := "text/plain; charset=utf-8"
    body := "リソースを取得できません" }

/-- The inline SVG body of the placeholder image response. -/
def placeholderSvgBody : String :=
  "<svg width=\"400\" height=\"300\" xmlns=\"http://www.w3.org/2000/svg\">\n" ++
  "  <rect width=\"100%\" height=\"100%\" fill=\"#e7e5e4\"/>\n" ++
  "  <text x=\"50%\" y=\"50%\" font-family=\"sans-serif\" font-size=\"18\" fill=\"#78716c\" text-anchor=\"middle\" dy=\"0.3em\">画像を読み込めません</text>\n" ++
  "</svg>"

/-- The synthesized placeholder image: `new Response(svg, ...)` defaults to
status 200 and carries `Content-Type: image/svg+xml`. -/
def placeholderImageResponse : Response :=
  { status := 200
    statusText := ""
    contentType := "image/svg+xml"
    body := placeholderSvgBody }

/-- The observable outcome of one run of the fetch handler: `response = none`
means the request was not intercepted (pass-through); `store` is the cache
store after the handler (including its fire-and-forget writes); `netCalls`
counts invocations of the network `fetch` primitive; `lookups` records, in
order, the descriptors the handler looked up in the cache store. -/
structure FetchResult where
  response : Option Response
  store : CacheStore
  netCalls : Nat
  lookups : List String
deriving DecidableEq, Repr

/-- The `fetch` event handler (router), lines 543–661 of the worker.
`locOrigin` is `location.origin`; `net` is the network oracle. -/
def handleFetch (locOrigin : String) (net : String → Option Response)
    (st : CacheStore) (req : Request) : FetchResult :=
  if req.origin != locOrigin then
    -- cross-origin: return without calling event.respondWith
    ⟨none, st, 0, []⟩
  else if req.mode == "navigate" then
    -- network-first
    match net req.url with
    | some networkResponse =>
      if networkResponse.ok then
        ⟨some networkResponse,
          nsPut (cachesOpen st CACHE_NAME) CACHE_NAME req.url networkResponse, 1, []⟩
      else
        ⟨some networkResponse, st, 1, []⟩
    | none =>
      match cachesMatchAll st req.url with
      | some cachedResponse => ⟨some cachedResponse, st, 1, [req.url]⟩
      | none =>
        match cachesMatchAll st OFFLINE_URL with
        | some offlineCached => ⟨some offlineCached, st, 1, [req.url, OFFLINE_URL]⟩
        | none => ⟨some offlineTextResponse, st, 1, [req.url, OFFLINE_URL]⟩
  else if req.destination == "image" then
    -- cache-first on the image namespace (opened first, create-if-absent)
    match cacheNsMatch (cachesOpen st IMAGE_CACHE_NAME) IMAGE_CACHE_NAME req.url with
    | some cachedResponse => ⟨some cachedResponse, cachesOpen st IMAGE_CACHE_NAME, 0, [req.url]⟩
    | none =>
      match net req.url with
      | some networkResponse =>
        if networkResponse.ok then
          ⟨some networkResponse,
            nsPut (cachesOpen st IMAGE_CACHE_NAME) IMAGE_CACHE_NAME req.url networkResponse, 1, [req.url]⟩
        else
          ⟨some networkResponse, cachesOpen st IMAGE_CACHE_NAME, 1, [req.url]⟩
      | none => ⟨some placeholderImageResponse, cachesOpen st IMAGE_CACHE_NAME, 1, [req.url]⟩
  else
    -- other resources: cache-first via caches.match, then network
    match cachesMatchAll st req.url with
    | some cachedResponse => ⟨some cachedResponse, st, 0, [req.url]⟩
    | none =>
      match net req.url with
      | some networkResponse =>
        if networkResponse.ok then
          ⟨some networkResponse,
            nsPut (cachesOpen st CACHE_NAME) CACHE_NAME req.url networkResponse, 1, [req.url]⟩
        else
          ⟨some networkResponse, st, 1, [req.url]⟩
      | none => ⟨some unavailableResponse, st, 1, [req.url]⟩

/-- Fetch every URL of a manifest; `none` as soon as any fetch rejects
(the all-or-nothing enumeration inside `Cache.addAll`). -/
def fetchAllOk (net : String → Option Response) : List String → Option (List (String × Response))
  | [] => some []
  | u :: rest =>
    match net u with
    | none => none
    | some r => (fetchAllOk net rest).map (fun prs => (u, r) :: prs)

/-- `Cache.addAll`: fetch all URLs; only if every fetch succeeds are the
responses written; any failure fails the whole call with no writes. -/
def addAll (net : String → Option Response) (st : CacheStore) (name : String)
    (urls : List String) : Option CacheStore :=
  (fetchAllOk net urls).map (fun prs => prs.foldl (fun acc pr => nsPut acc name pr.1 pr.2) st)

/-- The `install` handler body for an arbitrary manifest: open the static
namespace, `addAll` the manifest, then best-effort fetch-and-put of the
offline page (its failure is only logged). `none` means install failed. -/
def installWith (urls : List String) (net : String → Option Response)
    (st : CacheStore) : Option CacheStore :=
  match addAll net (cachesOpen st CACHE_NAME) CACHE_NAME urls with
  | none => none
  | some st2 =>
    match net OFFLINE_URL with
    | some offlineResponse => some (nsPut st2 CACHE_NAME OFFLINE_URL offlineResponse)
    | none => some st2

/-- The `install` event handler, lines 502–522 of the worker. -/
def installRun (net : String → Option Response) (st : CacheStore) : Option CacheStore :=
  installWith STATIC_CACHE_URLS net st

/-- The eviction filter of the activate handler, parameterised by the prefix
and the two current names it compares against. -/
def staleFilter (pfx curStatic curImage : String) (names : List String) : List String :=
  names.filter (fun n => strStartsWith n pfx && n != curStatic && n != curImage)

/-- The names the activate handler deletes, given `caches.keys()`. -/
def activateDeletions (names : List String) : List String :=
  staleFilter sitePfx CACHE_NAME IMAGE_CACHE_NAME names

/-- The eviction sweep on the store: list the names, delete each stale one. -/
def evictSweep (pfx curStatic curImage : String) (st : CacheStore) : CacheStore :=
  (staleFilter pfx curStatic curImage (st.map (fun ns => ns.1))).foldl cachesDelete st

/-- The `activate` event handler's cache effect, lines 525–540. -/
def activateRun (st : CacheStore) : CacheStore :=
  evictSweep sitePfx CACHE_NAME IMAGE_CACHE_NAME st

/-! Helper lemmas about the cache-store operations. -/

theorem cacheMatch_putEntry_self (es : CacheEntries) (u : String) (r : Response) :
    cacheMatch (putEntry es u r) u = some r := by
  simp [putEntry, cacheMatch]

theorem nsFind_nsPut (st : CacheStore) (name u : String) (r : Response) :
    nsFind (nsPut st name u r) name = (nsFind st name).map (fun es => putEntry es u r) := by
  induction st with
  | nil => rfl
  | cons ns rest ih =>
    by_cases h : ns.1 = name
    · simp [nsPut, nsFind, h]
    · simp [nsPut, nsFind, h, ih]

theorem nsFind_append (l1 l2 : CacheStore) (name : String) :
    nsFind (l1 ++ l2) name = (nsFind l1 name).or (nsFind l2 name) := by
  induction l1 with
  | nil => simp [nsFind]
  | cons ns rest ih =>
    by_cases h : ns.1 = name
    · simp [nsFind, h]
    · simp [nsFind, h, ih]

theorem nsFind_cachesOpen_isSome (st : CacheStore) (n : String) :
    (nsFind (cachesOpen st n) n).isSome := by
  unfold cachesOpen
  by_cases h : hasNs st n = true
  · rw [if_pos h]
    unfold hasNs at h
    exact h
  · rw [if_neg h, nsFind_append]
    unfold hasNs at h
    cases hf : nsFind st n with
    | some es => simp [hf] at h
    | none => simp [hf, nsFind]

theorem cacheNsMatch_nsPut_cachesOpen (st : CacheStore) (n u : String) (r : Response) :
    cacheNsMatch (nsPut (cachesOpen st n) n u r) n u = some r := by
  unfold cacheNsMatch
  rw [nsFind_nsPut]
  have h := nsFind_cachesOpen_isSome st n
  cases hf : nsFind (cachesOpen st n) n with
  | none => rw [hf] at h; simp at h
  | some es => simp [cacheMatch_putEntry_self]

theorem cacheNsMatch_cachesOpen (st : CacheStore) (m n u : String) :
    cacheNsMatch (cachesOpen st m) n u = cacheNsMatch st n u := by
  unfold cachesOpen
  by_cases h : hasNs st m = true
  · rw [if_pos h]
  · rw [if_neg h]
    unfold cacheNsMatch
    rw [nsFind_append]
    cases hf : nsFind st n with
    | some es => simp
    | none =>
      by_cases hm : m = n <;> simp [nsFind, hm, cacheMatch]

theorem fetchAllOk_none {net : String → Option Response} {urls : List String} {u : String}
    (hu : u ∈ urls) (hn : net u = none) : fetchAllOk net urls = none := by
  induction urls with
  | nil => cases hu
  | cons v rest ih =>
    rcases List.mem_cons.mp hu with h | h
    · subst h
      simp [fetchAllOk, hn]
    · cases hv : net v with
      | none => simp [fetchAllOk, hv]
      | some r => simp [fetchAllOk, hv, ih h]

theorem installWith_eq_none {urls : List String} {net : String → Option Response}
    {st : CacheStore} {u : String} (hu : u ∈ urls) (hn : net u = none) :
    installWith urls net st = none := by
  simp [installWith, addAll, fetchAllOk_none hu hn]

/-! Concrete fixtures used by counterexamples and witnesses. -/

/-- The worker's own origin in the concrete scenarios. -/
def siteOrigin : String := "https://cafe-serenity.example"

/-- A resolved navigation fetch with a non-ok status. -/
def navDoc404 : Response := ⟨404, "Not Found", "text/html", "missing page"⟩

/-- A resolved navigation fetch with an ok status. -/
def navDoc200 : Response := ⟨200, "OK", "text/html", "home page"⟩

/-- A same-origin navigation request for `/page`. -/
def navPageReq : Request := ⟨"/page", siteOrigin, "navigate", "document"⟩

/-- A network where `/page` resolves with a 404 and all else rejects. -/
def netNav404 : String → Option Response :=
  fun u => if u == "/page" then some navDoc404 else none

/-- A network where `/page` resolves with a 200 and all else rejects. -/
def netNav200 : String → Option Response :=
  fun u => if u == "/page" then some navDoc200 else none

/-! Claim theorems. -/

/-- C9: a request whose target origin differs from the worker's own origin is
not intercepted: the handler produces no response (pass-through), leaves the
cache store unchanged, and performs zero network calls and zero cache
lookups. -/
theorem c9_cross_origin_pass_through (locOrigin : String) (net : String → Option Response)
    (st : CacheStore) (req : Request) (h : req.origin ≠ locOrigin) :
    handleFetch locOrigin net st req = ⟨none, st, 0, []⟩ := by
  unfold handleFetch
  simp [h]

/-- Witness for C9 at a concrete cross-origin font request. -/
theorem c9_cross_origin_pass_through_witness :
    handleFetch siteOrigin netNav200 []
      ⟨"https://fonts.googleapis.com/css2", "https://fonts.googleapis.com", "no-cors", "style"⟩ =
      ⟨none, [], 0, []⟩ :=
  c9_cross_origin_pass_through siteOrigin netNav200 []
    ⟨"https://fonts.googleapis.com/css2", "https://fonts.googleapis.com", "no-cors", "style"⟩
    (by decide)

/-- C4: every same-origin request is answered with some response value,
whatever the network oracle and the cache contents; no network error is ever
propagated to the caller. -/
theorem c4_always_responds (locOrigin : String) (net : String → Option Response)
    (st : CacheStore) (req : Request) (h : req.origin = locOrigin) :
    ∃ r : Response, (handleFetch locOrigin net st req).response = some r := by
  unfold handleFetch
  rw [h]
  simp only [bne_self_eq_false, Bool.false_eq_true, if_false]
  split
  · split
    · split
      · exact ⟨_, rfl⟩
      · exact ⟨_, rfl⟩
    · split
      · exact ⟨_, rfl⟩
      · split
        · exact ⟨_, rfl⟩
        · exact ⟨_, rfl⟩
  · split
    · split
      · exact ⟨_, rfl⟩
      · split
        · split
          · exact ⟨_, rfl⟩
          · exact ⟨_, rfl⟩
        · exact ⟨_, rfl⟩
    · split
      · exact ⟨_, rfl⟩
      · split
        · split
          · exact ⟨_, rfl⟩
          · exact ⟨_, rfl⟩
        · exact ⟨_, rfl⟩

/-- Witness for C4 at a concrete same-origin request over a dead network. -/
theorem c4_always_responds_witness :
    ∃ r : Response, (handleFetch siteOrigin (fun _ => none) [] navPageReq).response = some r :=
  c4_always_responds siteOrigin (fun _ => none) [] navPageReq rfl

/-- C1 counterexample: the fetch of `/page` succeeds (it resolves, with
status 404), the handler returns that network response, yet the static
namespace contains no entry for the descriptor afterwards — the cache write
is guarded by `networkResponse.ok`. -/
theorem c1_counterexample :
    (handleFetch siteOrigin netNav404 [] navPageReq).response = some navDoc404 ∧
    navDoc404.ok = false ∧
    cacheNsMatch (handleFetch siteOrigin netNav404 [] navPageReq).store CACHE_NAME
      navPageReq.url = none := by
  decide

/-- C1 (amended): for every same-origin navigation request whose network
fetch succeeds, the handler returns exactly the network response, and when
that response is ok the static namespace (CACHE_NAME) subsequently contains
an entry for the request's descriptor. -/
theorem c1_navigation_network_first (locOrigin : String) (net : String → Option Response)
    (st : CacheStore) (req : Request) (nr : Response)
    (horig : req.origin = locOrigin) (hmode : req.mode = "navigate")
    (hnet : net req.url = some nr) :
    (handleFetch locOrigin net st req).response = some nr ∧
    (nr.ok = true →
      cacheNsMatch (handleFetch locOrigin net st req).store CACHE_NAME req.url = some nr) := by
  unfold handleFetch
  rw [horig, hmode]
  simp only [bne_self_eq_false, Bool.false_eq_true, if_false, beq_self_eq_true, if_true, hnet]
  by_cases hok : nr.ok = true
  · simp [hok, cacheNsMatch_nsPut_cachesOpen]
  · simp [hok]

/-- Witness for C1 at a concrete ok navigation fetch. -/
theorem c1_navigation_network_first_witness :
    (handleFetch siteOrigin netNav200 [] navPageReq).response = some navDoc200 ∧
    (navDoc200.ok = true →
      cacheNsMatch (handleFetch siteOrigin netNav200 [] navPageReq).store CACHE_NAME
        navPageReq.url = some navDoc200) :=
  c1_navigation_network_first siteOrigin netNav200 [] navPageReq navDoc200 rfl rfl (by decide)

/-- An ok response as previously cached for `/page` under the static name. -/
def cachedHome : Response := ⟨200, "OK", "text/html", "cached home"⟩

/-- A store whose static namespace holds `/page`. -/
def stNav : CacheStore := [(CACHE_NAME, [("/page", cachedHome)])]

/-- A stored offline page response. -/
def offlinePage : Response := ⟨200, "OK", "text/html", "offline page"⟩

/-- A store holding only the offline page in the static namespace. -/
def stOff : CacheStore := [(CACHE_NAME, [(OFFLINE_URL, offlinePage)])]

/-- C6: a same-origin navigation request whose fetch rejects and whose
descriptor has a cached entry gets exactly that entry back, and the handler's
only cache lookup is the request itself — the offline page is never looked
up. -/
theorem c6_navigation_cached_fallback (locOrigin : String) (net : String → Option Response)
    (st : CacheStore) (req : Request) (r : Response)
    (horig : req.origin = locOrigin) (hmode : req.mode = "navigate")
    (hnet : net req.url = none) (hc : cachesMatchAll st req.url = some r) :
    (handleFetch locOrigin net st req).response = some r ∧
    (handleFetch locOrigin net st req).lookups = [req.url] := by
  unfold handleFetch
  rw [horig, hmode]
  simp [hnet, hc]

/-- Witness for C6 with `/page` cached and the network down. -/
theorem c6_navigation_cached_fallback_witness :
    (handleFetch siteOrigin (fun _ => none) stNav navPageReq).response = some cachedHome ∧
    (handleFetch siteOrigin (fun _ => none) stNav navPageReq).lookups = [navPageReq.url] :=
  c6_navigation_cached_fallback siteOrigin (fun _ => none) stNav navPageReq cachedHome
    rfl rfl rfl (by decide)

/-- C7: a same-origin navigation request whose fetch rejects and whose
descriptor has no cached entry gets the stored offline page when one is
cached, and otherwise the synthesized plain-text 503 response. -/
theorem c7_navigation_offline_fallback (locOrigin : String) (net : String → Option Response)
    (st : CacheStore) (req : Request)
    (horig : req.origin = locOrigin) (hmode : req.mode = "navigate")
    (hnet : net req.url = none) (hmiss : cachesMatchAll st req.url = none) :
    (∀ off : Response, cachesMatchAll st OFFLINE_URL = some off →
      (handleFetch locOrigin net st req).response = some off) ∧
    (cachesMatchAll st OFFLINE_URL = none →
      (handleFetch locOrigin net st req).response = some offlineTextResponse ∧
      offlineTextResponse.status = 503 ∧
      offlineTextResponse.contentType = "text/plain; charset=utf-8") := by
  constructor
  · intro off hoff
    unfold handleFetch
    rw [horig, hmode]
    simp [hnet, hmiss, hoff]
  · intro hnone
    refine ⟨?_, rfl, rfl⟩
    unfold handleFetch
    rw [horig, hmode]
    simp [hnet, hmiss, hnone]

/-- Witness for C7: network down, `/page` uncached, offline page stored. -/
theorem c7_navigation_offline_fallback_witness :
    (∀ off : Response, cachesMatchAll stOff OFFLINE_URL = some off →
      (handleFetch siteOrigin (fun _ => none) stOff navPageReq).response = some off) ∧
    (cachesMatchAll stOff OFFLINE_URL = none →
      (handleFetch siteOrigin (fun _ => none) stOff navPageReq).response = some offlineTextResponse ∧
      offlineTextResponse.status = 503 ∧
      offlineTextResponse.contentType = "text/plain; charset=utf-8") :=
  c7_navigation_offline_fallback siteOrigin (fun _ => none) stOff navPageReq
    rfl rfl rfl (by decide)

/-- C5: for a same-origin image request, a hit in the image namespace is
returned with zero network calls; on a miss with a rejecting network, the
synthesized SVG placeholder (content type `image/svg+xml`) is returned. -/
theorem c5_image_cache_first (locOrigin : String) (net : String → Option Response)
    (st : CacheStore) (req : Request)
    (horig : req.origin = locOrigin) (hmode : req.mode ≠ "navigate")
    (hdest : req.destination = "image") :
    (∀ r : Response, cacheNsMatch st IMAGE_CACHE_NAME req.url = some r →
      (handleFetch locOrigin net st req).response = some r ∧
      (handleFetch locOrigin net st req).netCalls = 0) ∧
    (cacheNsMatch st IMAGE_CACHE_NAME req.url = none → net req.url = none →
      (handleFetch locOrigin net st req).response = some placeholderImageResponse ∧
      placeholderImageResponse.contentType = "image/svg+xml") := by
  constructor
  · intro r hr
    unfold handleFetch
    rw [horig]
    simp [hmode, hdest, cacheNsMatch_cachesOpen, hr]
  · intro hnone hnet
    refine ⟨?_, rfl⟩
    unfold handleFetch
    rw [horig]
    simp [hmode, hdest, cacheNsMatch_cachesOpen, hnone, hnet]

/-- A cached image entry. -/
def cachedImg : Response := ⟨200, "OK", "image/png", "imgbytes"⟩

/-- A store whose image namespace holds `/images/a.png`. -/
def stImg : CacheStore := [(IMAGE_CACHE_NAME, [("/images/a.png", cachedImg)])]

/-- A same-origin image request for `/images/a.png`. -/
def imgReq : Request := ⟨"/images/a.png", siteOrigin, "no-cors", "image"⟩

/-- Witness for C5 with a cached image and a dead network. -/
theorem c5_image_cache_first_witness :
    (∀ r : Response, cacheNsMatch stImg IMAGE_CACHE_NAME imgReq.url = some r →
      (handleFetch siteOrigin (fun _ => none) stImg imgReq).response = some r ∧
      (handleFetch siteOrigin (fun _ => none) stImg imgReq).netCalls = 0) ∧
    (cacheNsMatch stImg IMAGE_CACHE_NAME imgReq.url = none → (fun _ => none : String → Option Response) imgReq.url = none →
      (handleFetch siteOrigin (fun _ => none) stImg imgReq).response = some placeholderImageResponse ∧
      placeholderImageResponse.contentType = "image/svg+xml") :=
  c5_image_cache_first siteOrigin (fun _ => none) stImg imgReq rfl (by decide) rfl

/-- C10: whenever the network resolves with a non-ok response for a
same-origin request, the handler changes no cache entry anywhere, and if the
network was actually consulted the non-ok response itself is what the
handler returns. -/
theorem c10_only_ok_responses_cached (locOrigin : String) (net : String → Option Response)
    (st : CacheStore) (req : Request) (nr : Response)
    (horig : req.origin = locOrigin) (hnet : net req.url = some nr) (hok : nr.ok = false) :
    (∀ name url : String,
      cacheNsMatch (handleFetch locOrigin net st req).store name url = cacheNsMatch st name url) ∧
    ((handleFetch locOrigin net st req).netCalls ≠ 0 →
      (handleFetch locOrigin net st req).response = some nr) := by
  unfold handleFetch
  rw [horig]
  by_cases hm : req.mode = "navigate"
  · rw [hm]
    simp [hnet, hok]
  · by_cases hd : req.destination = "image"
    · rw [hd]
      cases hc : cacheNsMatch (cachesOpen st IMAGE_CACHE_NAME) IMAGE_CACHE_NAME req.url with
      | some r => simp [hm, hc, cacheNsMatch_cachesOpen]
      | none => simp [hm, hc, hnet, hok, cacheNsMatch_cachesOpen]
    · cases hc : cachesMatchAll st req.url with
      | some r => simp [hm, hd, hc]
      | none => simp [hm, hd, hc, hnet, hok]

/-- Witness for C10 at the concrete 404 navigation fetch. -/
theorem c10_only_ok_responses_cached_witness :
    cacheNsMatch (handleFetch siteOrigin netNav404 [] navPageReq).store CACHE_NAME "/page" =
      cacheNsMatch [] CACHE_NAME "/page" ∧
    ((handleFetch siteOrigin netNav404 [] navPageReq).netCalls ≠ 0 →
      (handleFetch siteOrigin netNav404 [] navPageReq).response = some navDoc404) :=
  ⟨(c10_only_ok_responses_cached siteOrigin netNav404 [] navPageReq navDoc404 rfl (by decide)
      (by decide)).1 CACHE_NAME "/page",
   (c10_only_ok_responses_cached siteOrigin netNav404 [] navPageReq navDoc404 rfl (by decide)
      (by decide)).2⟩

/-- C2: a namespace name is deleted by activation iff it starts with the
site prefix and equals neither current name; and the spec's activation
scenario — existing namespaces site-v1, site-v2, images-v1 with current
names site-v2 and images-v1 — deletes exactly site-v1, leaving the other
two namespaces with their entries untouched. -/
theorem c2_activate_evicts_stale :
    (∀ (names : List String) (n : String), n ∈ names →
      (n ∈ activateDeletions names ↔
        (strStartsWith n sitePfx = true ∧ n ≠ CACHE_NAME ∧ n ≠ IMAGE_CACHE_NAME))) ∧
    evictSweep "site-" "site-v2" "images-v1"
      [("site-v1", [("/a", cachedHome)]),
       ("site-v2", [("/b", cachedHome)]),
       ("images-v1", [("/c", cachedImg)])] =
      [("site-v2", [("/b", cachedHome)]),
       ("images-v1", [("/c", cachedImg)])] := by
  constructor
  · intro names n hn
    simp [activateDeletions, staleFilter, List.mem_filter, hn, Bool.and_eq_true,
      bne_iff_ne, and_assoc]
  · decide

/-- Witness for C2 at a concrete stale name. -/
theorem c2_activate_evicts_stale_witness :
    "cafe-serenity-v0.9.0" ∈ activateDeletions ["cafe-serenity-v0.9.0"] ↔
      (strStartsWith "cafe-serenity-v0.9.0" sitePfx = true ∧
        "cafe-serenity-v0.9.0" ≠ CACHE_NAME ∧ "cafe-serenity-v0.9.0" ≠ IMAGE_CACHE_NAME) :=
  c2_activate_evicts_stale.1 ["cafe-serenity-v0.9.0"] "cafe-serenity-v0.9.0" (by decide)

/-- C3: if the fetch of any manifest URL rejects, install fails as a whole;
in particular every 5-URL manifest whose third fetch rejects fails. -/
theorem c3_install_all_or_nothing :
    (∀ (net : String → Option Response) (st : CacheStore) (u : String),
      u ∈ STATIC_CACHE_URLS → net u = none → installRun net st = none) ∧
    (∀ (net : String → Option Response) (st : CacheStore) (u1 u2 u3 u4 u5 : String),
      net u3 = none → installWith [u1, u2, u3, u4, u5] net st = none) := by
  constructor
  · intro net st u hu hn
    exact installWith_eq_none hu hn
  · intro net st u1 u2 u3 u4 u5 hn
    exact installWith_eq_none (by simp) hn

/-- Witness for C3: a fully dead network fails install for the real manifest
and for a concrete 5-URL manifest. -/
theorem c3_install_all_or_nothing_witness :
    ("/" ∈ STATIC_CACHE_URLS ∧ installRun (fun _ => none) [] = none) ∧
    installWith ["/a", "/b", "/c", "/d", "/e"] (fun _ => none) [] = none :=
  ⟨⟨by decide, c3_install_all_or_nothing.1 (fun _ => none) [] "/" (by decide) rfl⟩,
   c3_install_all_or_nothing.2 (fun _ => none) [] "/a" "/b" "/c" "/d" "/e" rfl⟩

/-- A fresh ok script response from the network. -/
def freshScript : Response := ⟨200, "OK", "text/javascript", "fresh script"⟩

/-- A same-origin script ("other") request for `/app.js`. -/
def scriptReq : Request := ⟨"/app.js", siteOrigin, "no-cors", "script"⟩

/-- A store where `/app.js` sits only in the image namespace. -/
def stCross : CacheStore := [(CACHE_NAME, []), (IMAGE_CACHE_NAME, [("/app.js", cachedImg)])]

/-- A network that always resolves `freshScript`. -/
def netScript : String → Option Response := fun _ => some freshScript

/-- C8 counterexample.  Scope: with `/app.js` present only in the image
namespace (absent from the static one), the "other" branch returns the image
namespace's entry with zero network calls, instead of fetching the network
as a static-namespace-scoped lookup would.  Ok-guard: on an empty store, a
resolved non-ok response is returned but never stored into the static
namespace. -/
theorem c8_counterexample :
    (cacheNsMatch stCross CACHE_NAME scriptReq.url = none ∧
      handleFetch siteOrigin netScript stCross scriptReq =
        ⟨some cachedImg, stCross, 0, ["/app.js"]⟩ ∧
      cachedImg ≠ freshScript) ∧
    ((handleFetch siteOrigin (fun _ => some navDoc404) [] scriptReq).response = some navDoc404 ∧
      cacheNsMatch (handleFetch siteOrigin (fun _ => some navDoc404) [] scriptReq).store
        CACHE_NAME scriptReq.url = none) := by
  decide

/-- C8 (amended): for same-origin requests that are neither navigations nor
images, the handler is cache-first with the lookup ranging over every
namespace (`caches.match`), not scoped to the static namespace: a hit in any
namespace is returned with zero network calls and no store change; on a miss
everywhere, the network is fetched — an ok response is stored into the
static namespace and returned, a non-ok response is returned with the store
unchanged; and on network failure the synthesized plain-text 503 response is
returned. -/
theorem c8_other_cache_first (locOrigin : String) (net : String → Option Response)
    (st : CacheStore) (req : Request)
    (horig : req.origin = locOrigin) (hmode : req.mode ≠ "navigate")
    (hdest : req.destination ≠ "image") :
    (∀ r : Response, cachesMatchAll st req.url = some r →
      handleFetch locOrigin net st req = ⟨some r, st, 0, [req.url]⟩) ∧
    (∀ nr : Response, cachesMatchAll st req.url = none → net req.url = some nr →
      (handleFetch locOrigin net st req).response = some nr ∧
      (nr.ok = true →
        cacheNsMatch (handleFetch locOrigin net st req).store CACHE_NAME req.url = some nr) ∧
      (nr.ok = false → (handleFetch locOrigin net st req).store = st)) ∧
    (cachesMatchAll st req.url = none → net req.url = none →
      (handleFetch locOrigin net st req).response = some unavailableResponse ∧
      unavailableResponse.status = 503 ∧
      unavailableResponse.contentType = "text/plain; charset=utf-8") := by
  refine ⟨?_, ?_, ?_⟩
  · intro r hr
    unfold handleFetch
    rw [horig]
    simp [hmode, hdest, hr]
  · intro nr hmiss hnet
    unfold handleFetch
    rw [horig]
    by_cases hok : nr.ok = true
    · simp [hmode, hdest, hmiss, hnet, hok, cacheNsMatch_nsPut_cachesOpen]
    · simp [hmode, hdest, hmiss, hnet, hok, Bool.not_eq_true]
  · intro hmiss hnet
    refine ⟨?_, rfl, rfl⟩
    unfold handleFetch
    rw [horig]
    simp [hmode, hdest, hmiss, hnet]

/-- Witness for C8 at a concrete cache hit. -/
theorem c8_other_cache_first_witness :
    handleFetch siteOrigin netScript stCross scriptReq =
      ⟨some cachedImg, stCross, 0, ["/app.js"]⟩ :=
  (c8_other_cache_first siteOrigin netScript stCross scriptReq rfl (by decide)
    (by decide)).1 cachedImg (by decide)

end CafeSW
